import Mathlib

/-!
Verification development for the video transcoding and transfer script
(`scripts/transcoding/script.py`).

The script is embedded shallowly: every external effect (subprocess
invocations, the local file system, the paramiko SSH/SFTP library) is
represented by an explicit environment `Env` and a threaded state `St`.
Pure helpers of the Python standard library that the script relies on
(`os.path.dirname`, `os.path.normpath`) are translated directly from the
CPython `posixpath` implementation.
-/

namespace Script

/-- Outcome of one `subprocess.run` invocation: the process ran and exited
with status 0 (`ok`), ran and exited non-zero (`exitFail`, which with
`check=True` raises `subprocess.CalledProcessError`), or could not be
invoked at all (`invokeErr`, an `OSError` such as `FileNotFoundError`,
which `check=True` does not turn into `CalledProcessError`). -/
inductive RunResult
  | ok
  | exitFail
  | invokeErr
deriving DecidableEq, Repr

/-- Python exception classes that can escape the embedded functions. -/
inductive PyError
  | calledProcessError
  | osError
  | sshException
  | nameError
deriving DecidableEq, Repr

/-- `os.path.dirname` (CPython `posixpath.dirname`), on the character list:
`i = p.rfind(sep) + 1; head = p[:i]`, then trailing slashes are stripped
from `head` unless `head` consists only of slashes. -/
def dirnameL (cs : List Char) : List Char :=
  let head := (cs.reverse.dropWhile (fun c => !(c == '/'))).reverse
  if head ≠ [] ∧ head.all (fun c => c == '/') = false then
    (head.reverse.dropWhile (fun c => c == '/')).reverse
  else head

/-- `os.path.dirname` on strings. -/
def dirname (p : String) : String := ⟨dirnameL p.data⟩

/-- The number of leading slashes `posixpath.normpath` preserves: one,
except for the POSIX special case of exactly two. -/
def initialSlashes : List Char → Nat
  | '/' :: '/' :: '/' :: _ => 1
  | '/' :: '/' :: _ => 2
  | '/' :: _ => 1
  | _ => 0

/-- Python `str.split('/')` on a character list. -/
def splitSlash : List Char → List (List Char)
  | [] => [[]]
  | c :: t =>
    let r := splitSlash t
    if c == '/' then [] :: r
    else
      match r with
      | [] => [[c]]
      | h :: t2 => (c :: h) :: t2

/-- `'/'.join(...)` on character-list components. -/
def joinSlash : List (List Char) → List Char
  | [] => []
  | [c] => c
  | c :: r => c ++ '/' :: joinSlash r

/-- `os.path.normpath` (CPython `posixpath.normpath`) on the character
list: collapse duplicate separators and `.` components, resolve `..`
where possible, keeping the POSIX special case of exactly two leading
slashes. -/
def normpathL (cs : List Char) : List Char :=
  if cs = [] then ['.']
  else
    let islashes := initialSlashes cs
    let new_comps := (splitSlash cs).foldl
      (fun acc comp =>
        if comp = [] ∨ comp = ['.'] then acc
        else if comp ≠ ['.', '.']
            ∨ (islashes = 0 ∧ acc = [])
            ∨ (acc ≠ [] ∧ acc.getLast? = some ['.', '.']) then
          acc ++ [comp]
        else if acc ≠ [] then acc.dropLast
        else acc)
      []
    let joined := List.replicate islashes '/' ++ joinSlash new_comps
    if joined = [] then ['.'] else joined

/-- `os.path.normpath` on strings. -/
def normpath (path : String) : String := ⟨normpathL path.data⟩

/-- Containment of one character list in another, checked at every
suffix of the haystack. -/
def isSubL (needle : List Char) : List Char → Bool
  | [] => needle.isEmpty
  | c :: t => needle.isPrefixOf (c :: t) || isSubL needle t

/-- `needle in hay` on Python strings (substring containment). -/
def strIn (needle hay : String) : Bool := isSubL needle.data hay.data

/-- The external world as the script observes it: subprocess outcomes,
`ffprobe` outputs, the login name and home directory, and the behaviour of
the paramiko transport (TCP connect, password authentication, private-key
loading and key authentication, remote `stat`, and `put`). -/
structure Env where
  run : List String → RunResult
  probeBitDepth : String → Option String
  probeSubCodec : String → String
  login : String
  home : String
  transportOk : String → Bool
  passwordAuth : String → String → Bool
  loadRSAKey : String → Bool
  keyAuth : String → Bool
  statOk : String → Bool
  putOk : String → String → Bool
  recursionLimit : Nat

/-- Threaded observable state: the set of local files that exist (`fs`,
as a list of paths treated as a set), the sequence of subprocess commands
that were executed (`trace`), and the sequence of `sftp.put` uploads that
were attempted (`puts`). -/
structure St where
  fs : List String
  trace : List (List String)
  puts : List (String × String)
deriving DecidableEq, Repr

/-- `subprocess.run(cmd, check=True)`: record the command in the trace and
report the environment's outcome for it. -/
def runCmd (env : Env) (cmd : List String) (st : St) : RunResult × St :=
  (env.run cmd, { st with trace := st.trace ++ [cmd] })

/-- The hardware (NVENC) encode command built by `transcode_video`; when
the source was detected as 10-bit, `-pix_fmt yuv420p` is inserted right
after the input and before the encoder arguments. -/
def gpu_cmd (video_path bitrate output_path : String) (is_10bit : Bool) : List String :=
  ["ffmpeg", "-i", video_path]
    ++ (if is_10bit then ["-pix_fmt", "yuv420p"] else [])
    ++ ["-c:v", "h264_nvenc", "-preset", "p4", "-profile:v", "high", "-b:v", bitrate,
        "-c:a", "aac", "-b:a", "192k", "-map", "0:v", "-map", "0:a",
        output_path ++ ".mkv"]

/-- The software (libx264) encode command built by `transcode_video`; also
used verbatim as the fallback after a failed hardware attempt. -/
def cpu_cmd (video_path bitrate output_path : String) : List String :=
  ["ffmpeg", "-i", video_path, "-c:v", "libx264", "-preset", "medium", "-crf", "22",
   "-b:v", bitrate, "-c:a", "aac", "-b:a", "192k", "-map", "0:v", "-map", "0:a",
   output_path ++ ".mkv"]

/-- Bit-depth detection in `transcode_video`: `ffprobe` output is searched
for the substrings `10` / `p10`; a probe exception leaves the flag false. -/
def detected_10bit (env : Env) (video_path : String) : Bool :=
  match env.probeBitDepth video_path with
  | none => false
  | some out => strIn "10" out || strIn "p10" out

/-- `transcode_video(video_path, output_path, bitrate, use_gpu)`.
With `use_gpu`, the NVENC command is run first; only a
`subprocess.CalledProcessError` (non-zero exit) is caught, after which the
libx264 fallback runs with `check=True`.  Without `use_gpu` only the
libx264 command runs.  A successful encode materialises
`output_path + ".mkv"`. -/
def transcode_video (env : Env) (video_path output_path bitrate : String)
    (use_gpu : Bool) (st : St) : Except PyError Unit × St :=
  let mkv := output_path ++ ".mkv"
  if use_gpu then
    match runCmd env (gpu_cmd video_path bitrate output_path (detected_10bit env video_path)) st with
    | (.ok, st) => (.ok (), { st with fs := mkv :: st.fs })
    | (.invokeErr, st) => (.error .osError, st)
    | (.exitFail, st) =>
      match runCmd env (cpu_cmd video_path bitrate output_path) st with
      | (.ok, st) => (.ok (), { st with fs := mkv :: st.fs })
      | (.exitFail, st) => (.error .calledProcessError, st)
      | (.invokeErr, st) => (.error .osError, st)
  else
    match runCmd env (cpu_cmd video_path bitrate output_path) st with
    | (.ok, st) => (.ok (), { st with fs := mkv :: st.fs })
    | (.exitFail, st) => (.error .calledProcessError, st)
    | (.invokeErr, st) => (.error .osError, st)

/-- `ffmpeg` command extracting the first subtitle stream to ASS
(`-map 0:s:0 -c:s copy`). -/
def ass_cmd (video_path temp_ass_path : String) : List String :=
  ["ffmpeg", "-i", video_path, "-map", "0:s:0", "-c:s", "copy", temp_ass_path]

/-- `ffmpeg` command converting the extracted ASS file to SRT. -/
def srt_from_ass_cmd (temp_ass_path srt_path : String) : List String :=
  ["ffmpeg", "-i", temp_ass_path, "-c:s", "srt", srt_path]

/-- `ffmpeg` command extracting the first subtitle stream directly to SRT;
the script builds this identical command for both the image-based branch
and the text-based branch. -/
def srt_direct_cmd (video_path srt_path : String) : List String :=
  ["ffmpeg", "-i", video_path, "-map", "0:s:0", "-c:s", "srt", srt_path]

/-- `extract_subtitles(video_path, output_path)`.  Branches on the codec
of the first subtitle stream.  In the ASS/SSA branch the temporary `.ass`
file is removed only on the all-success path; a `CalledProcessError` from
the conversion returns `False` from inside the handler without removing
it.  `os.makedirs` touches only directories and is not modelled.  The
successful paths fall through to `return os.path.exists(srt_path)`. -/
def extract_subtitles (env : Env) (video_path output_path : String) (st : St) :
    Except PyError Bool × St :=
  let subtitle_codec := env.probeSubCodec video_path
  let srt_path := normpath (output_path ++ ".srt")
  if subtitle_codec = "ass" ∨ subtitle_codec = "ssa" then
    let temp_ass_path := normpath (output_path ++ ".ass")
    match runCmd env (ass_cmd video_path temp_ass_path) st with
    | (.exitFail, st) => (.ok false, st)
    | (.invokeErr, st) => (.error .osError, st)
    | (.ok, st) =>
      let st := { st with fs := temp_ass_path :: st.fs }
      match runCmd env (srt_from_ass_cmd temp_ass_path srt_path) st with
      | (.exitFail, st) => (.ok false, st)
      | (.invokeErr, st) => (.error .osError, st)
      | (.ok, st) =>
        let st := { st with fs := srt_path :: st.fs }
        let st := { st with fs := st.fs.filter (fun q => q != temp_ass_path) }
        (.ok (decide (srt_path ∈ st.fs)), st)
  else if subtitle_codec = "dvd_subtitle" ∨ subtitle_codec = "dvdsub"
      ∨ subtitle_codec = "hdmv_pgs_subtitle" ∨ subtitle_codec = "pgssub" then
    match runCmd env (srt_direct_cmd video_path srt_path) st with
    | (.exitFail, st) => (.ok false, st)
    | (.invokeErr, st) => (.error .osError, st)
    | (.ok, st) =>
      let st := { st with fs := srt_path :: st.fs }
      (.ok (decide (srt_path ∈ st.fs)), st)
  else
    match runCmd env (srt_direct_cmd video_path srt_path) st with
    | (.exitFail, st) => (.ok false, st)
    | (.invokeErr, st) => (.error .osError, st)
    | (.ok, st) =>
      let st := { st with fs := srt_path :: st.fs }
      (.ok (decide (srt_path ∈ st.fs)), st)

/-- `create_remote_dir(sftp, remote_path)`: if the path is `/` or empty,
return; if `sftp.stat` succeeds the directory exists; otherwise recurse on
`os.path.dirname` and then `sftp.mkdir` (whose `IOError` is swallowed).
The Python recursion is bounded only by the interpreter's recursion
limit, modelled here as explicit fuel; exhausting it is Python's
`RecursionError`, encoded as `none`. -/
def create_remote_dir (statOk : String → Bool) : Nat → String → Option Unit
  | 0, _ => none
  | fuel + 1, remote_path =>
    if remote_path = "/" ∨ remote_path = "" then some ()
    else if statOk remote_path then some ()
    else
      match create_remote_dir statOk fuel (dirname remote_path) with
      | none => none
      | some () => some ()

/-- The key-file candidates `os.path.expanduser('~/.ssh/id_rsa')` and
`os.path.expanduser('~/.ssh/id_ed25519')`, in the order the script lists
them (`expanduser` replaces the leading `~` with the home directory). -/
def key_paths (env : Env) : List String :=
  [env.home ++ "/.ssh/id_rsa", env.home ++ "/.ssh/id_ed25519"]

/-- The key loop of `transfer_file`: for each candidate path, if the file
exists, load it with `paramiko.RSAKey.from_private_key_file` (the script
uses the RSA loader for every candidate) and call `transport.connect`
with it; any exception from loading or connecting is caught and the loop
moves to the next candidate; the first candidate that authenticates wins
(`break`).  Returns the path of the winning candidate, if any. -/
def tryKeys (env : Env) (fs : List String) : List String → Option String
  | [] => none
  | kp :: rest =>
    if kp ∈ fs then
      if env.loadRSAKey kp then
        if env.keyAuth kp then some kp else tryKeys env fs rest
      else tryKeys env fs rest
    else tryKeys env fs rest

/-- The body of the `try` block of the SFTP branch of `transfer_file`
(authenticate, `create_remote_dir` on the parent, `sftp.put`).  Returns
`false` when an exception was raised and caught by the enclosing
`except Exception` handler (failed password auth, no key authenticating,
`RecursionError` from `create_remote_dir`, or a failed `put`);
returns `true` when the body ran to completion. -/
def sftp_attempt (env : Env) (st : St) (local_path remote_path username : String)
    (password : Option String) : Bool × St :=
  let authed :=
    match password with
    | some pw => env.passwordAuth username pw
    | none => (tryKeys env st.fs (key_paths env)).isSome
  if authed then
    match create_remote_dir env.statOk env.recursionLimit (dirname remote_path) with
    | none => (false, st)
    | some () => (env.putOk local_path remote_path,
                  { st with puts := st.puts ++ [(local_path, remote_path)] })
  else (false, st)

/-- A single-quote character, written via its code point; it models the
quoting in the script's `f"mkdir -p '...'"` command strings. -/
def sq : String := String.singleton (Char.ofNat 39)

/-- The remote `mkdir -p` command of the shell fallback; with a password
it is wrapped in `sshpass -p`. -/
def scp_mkdir_cmd (username remote_host remote_dir : String)
    (password : Option String) : List String :=
  match password with
  | some pw => ["sshpass", "-p", pw, "ssh", username ++ "@" ++ remote_host,
                "mkdir -p " ++ sq ++ remote_dir ++ sq]
  | none => ["ssh", username ++ "@" ++ remote_host,
             "mkdir -p " ++ sq ++ remote_dir ++ sq]

/-- The `scp` copy command of the shell fallback; with a password it is
wrapped in `sshpass -p`. -/
def scp_copy_cmd (username remote_host local_path remote_path : String)
    (password : Option String) : List String :=
  match password with
  | some pw => ["sshpass", "-p", pw, "scp", local_path,
                username ++ "@" ++ remote_host ++ ":" ++ remote_path]
  | none => ["scp", local_path, username ++ "@" ++ remote_host ++ ":" ++ remote_path]

/-- Run the fallback pair (remote `mkdir -p`, then `scp`) under a single
`except subprocess.CalledProcessError` handler that returns `False`; an
`OSError` from either invocation is not caught and escapes. -/
def run_mkdir_then_scp (env : Env) (st : St) (mkdirCmd scpCmd : List String) :
    Except PyError Bool × St :=
  match runCmd env mkdirCmd st with
  | (.ok, st) =>
    match runCmd env scpCmd st with
    | (.ok, st) => (.ok true, st)
    | (.exitFail, st) => (.ok false, st)
    | (.invokeErr, st) => (.error .osError, st)
  | (.exitFail, st) => (.ok false, st)
  | (.invokeErr, st) => (.error .osError, st)

/-- `transfer_file(local_path, remote_host, remote_path, username,
password, transfer_method)`.  In the SFTP branch,
`paramiko.Transport((remote_host, 22))` is constructed before the `try`
block, so a connection failure there raises out of the function; any
exception inside the `try` triggers the shell fallback
(`run_mkdir_then_scp`).  In the SCP branch with a password, a successful
`which sshpass` check leaves `mkdir_cmd`/`scp_cmd` unassigned, so the
subsequent use raises `NameError` (uncaught, since the handler only
catches `CalledProcessError`); when `sshpass` is absent the key-auth
command pair is used instead. -/
def transfer_file (env : Env) (st : St) (local_path remote_host remote_path : String)
    (username password : Option String) (transfer_method : String) :
    Except PyError Bool × St :=
  let uname := username.getD env.login
  if transfer_method = "sftp" then
    if env.transportOk remote_host = false then (.error .sshException, st)
    else
      match sftp_attempt env st local_path remote_path uname password with
      | (true, st) => (.ok true, st)
      | (false, st) =>
        let remote_dir := dirname remote_path
        run_mkdir_then_scp env st
          (scp_mkdir_cmd uname remote_host remote_dir password)
          (scp_copy_cmd uname remote_host local_path remote_path password)
  else
    let remote_dir := dirname remote_path
    match password with
    | some _ =>
      match runCmd env ["which", "sshpass"] st with
      | (.ok, st) => (.error .nameError, st)
      | (.invokeErr, st) => (.error .osError, st)
      | (.exitFail, st) =>
        run_mkdir_then_scp env st
          (scp_mkdir_cmd uname remote_host remote_dir none)
          (scp_copy_cmd uname remote_host local_path remote_path none)
    | none =>
      run_mkdir_then_scp env st
        (scp_mkdir_cmd uname remote_host remote_dir none)
        (scp_copy_cmd uname remote_host local_path remote_path none)

/-- One discovered video asset: its source path, the string form of
`rel_path.parent` (`"."` for a file directly under the source root), and
`rel_path.stem`. -/
structure Asset where
  source : String
  rel_parent : String
  stem : String
deriving DecidableEq, Repr

/-- `rel_path.parent / rel_path.stem` as a string; `pathlib` drops a
`"."` parent. -/
def relStem (a : Asset) : String :=
  if a.rel_parent = "." then a.stem else a.rel_parent ++ "/" ++ a.stem

/-- The per-asset temp output stem `temp_dir / rel_path.parent /
rel_path.stem`. -/
def output_stem (temp : String) (a : Asset) : String := temp ++ "/" ++ relStem a

/-- The configuration record `main` builds from either entry channel. -/
structure Args where
  bitrate : String
  dest_host : String
  dest_folder : String
  username : Option String
  password : Option String
  method : String
  temp : String
  use_gpu : Bool

/-- `if os.path.exists(p): os.remove(p)` on the modelled file set. -/
def remove_if_exists (p : String) (st : St) : St :=
  if p ∈ st.fs then { st with fs := st.fs.filter (fun q => q != p) } else st

/-- The final cleanup of the per-asset loop: remove the temp MKV and the
temp SRT, each guarded by `os.path.exists`. -/
def cleanup_temp (mkv srt : String) (st : St) : St :=
  remove_if_exists srt (remove_if_exists mkv st)

/-- The body of the per-asset loop of `main` (lines 447-477 of the
script): transcode, transfer the MKV, transfer the SRT if it exists on
disk, then clean up.  `main` never calls `has_subtitles` or
`extract_subtitles`, so no subtitle-extraction stage appears here.  An
exception from `transcode_video` or `transfer_file` propagates (nothing
in `main` catches it); the boolean outcome of `transfer_file` is
ignored. -/
def process_asset (env : Env) (args : Args) (a : Asset) (st : St) :
    Except PyError Unit × St :=
  let output_path := output_stem args.temp a
  match transcode_video env a.source output_path args.bitrate args.use_gpu st with
  | (.error e, st) => (.error e, st)
  | (.ok (), st) =>
    let mkv_path := output_path ++ ".mkv"
    let remote_mkv_path := args.dest_folder ++ "/" ++ relStem a ++ ".mkv"
    match transfer_file env st mkv_path args.dest_host remote_mkv_path
        args.username args.password args.method with
    | (.error e, st) => (.error e, st)
    | (.ok _, st) =>
      let srt_path := output_path ++ ".srt"
      let afterSrt :=
        if srt_path ∈ st.fs then
          transfer_file env st srt_path args.dest_host
            (args.dest_folder ++ "/" ++ relStem a ++ ".srt")
            args.username args.password args.method
        else (.ok true, st)
      match afterSrt with
      | (.error e, st) => (.error e, st)
      | (.ok _, st) => (.ok (), cleanup_temp mkv_path srt_path st)

/-- The batch loop of `main`: process the discovered assets in order; an
escaping exception aborts the remaining iterations. -/
def process_all (env : Env) (args : Args) : List Asset → St → Except PyError Unit × St
  | [], st => (.ok (), st)
  | a :: rest, st =>
    match process_asset env args a st with
    | (.error e, st) => (.error e, st)
    | (.ok (), st) => process_all env args rest st

/-! ## Basic facts about the file-set operations -/

theorem not_mem_filter_bne (l : List String) (p : String) :
    p ∉ l.filter (fun q => q != p) := by
  intro h
  rw [List.mem_filter] at h
  simpa using h.2

theorem not_mem_filter_of_not_mem (l : List String) (f : String → Bool) (p : String)
    (h : p ∉ l) : p ∉ l.filter f :=
  fun hm => h (List.mem_filter.mp hm).1

theorem remove_if_exists_not_mem (p : String) (st : St) :
    p ∉ (remove_if_exists p st).fs := by
  unfold remove_if_exists
  split
  · exact not_mem_filter_bne _ _
  · next h => exact h

theorem remove_if_exists_pres (p q : String) (st : St) (h : p ∉ st.fs) :
    p ∉ (remove_if_exists q st).fs := by
  unfold remove_if_exists
  split
  · exact not_mem_filter_of_not_mem _ _ _ h
  · exact h

theorem cleanup_temp_spec (mkv srt : String) (st : St) :
    mkv ∉ (cleanup_temp mkv srt st).fs ∧ srt ∉ (cleanup_temp mkv srt st).fs :=
  ⟨remove_if_exists_pres _ _ _ (remove_if_exists_not_mem _ _),
   remove_if_exists_not_mem _ _⟩

/-! ## Concrete environments used by the concrete-scenario theorems -/

/-- A benign environment: every subprocess succeeds, the bit-depth probe
raises (leaving the 10-bit flag false), the first subtitle stream is a
text-family (`subrip`) stream, and every transfer collaborator succeeds. -/
def envBase : Env where
  run := fun _ => .ok
  probeBitDepth := fun _ => none
  probeSubCodec := fun _ => "subrip"
  login := "user"
  home := "/home/user"
  transportOk := fun _ => true
  passwordAuth := fun _ _ => true
  loadRSAKey := fun _ => true
  keyAuth := fun _ => true
  statOk := fun _ => true
  putOk := fun _ _ => true
  recursionLimit := 1000

/-- Scenario A's asset: `root/a/b.mp4`, relative path `a/b.mp4`. -/
def assetA : Asset := ⟨"root/a/b.mp4", "a", "b"⟩

/-- Scenario A's configuration: temp `/tmp/x`, destination `host:/d`,
software-only encoding, SFTP with a password. -/
def argsA : Args := ⟨"2M", "host", "/d", some "u", some "pw", "sftp", "/tmp/x", false⟩

/-- An environment in which every encoder invocation (hardware and
software alike) exits non-zero while everything else succeeds. -/
def envFailEnc : Env :=
  { envBase with
    run := fun cmd =>
      if cmd.contains "h264_nvenc" || cmd.contains "libx264" then .exitFail else .ok }

/-- An environment whose hardware encoder invocation raises an `OSError`
(the binary cannot be executed) while everything else succeeds. -/
def envGpuOsErr : Env :=
  { envBase with
    run := fun cmd => if cmd.contains "h264_nvenc" then .invokeErr else .ok }

/-- An environment whose hardware encoder exits non-zero while the
software encoder and everything else succeed. -/
def envFailSwOk : Env :=
  { envBase with
    run := fun cmd => if cmd.contains "h264_nvenc" then .exitFail else .ok }

/-- An environment whose bit-depth probe reports a 10-bit pixel format. -/
def env10 : Env :=
  { envBase with probeBitDepth := fun _ => some "yuv420p10le" }

/-- A 10-bit environment whose hardware encoder exits non-zero while the
software encoder succeeds. -/
def env10fail : Env :=
  { env10 with
    run := fun cmd => if cmd.contains "h264_nvenc" then .exitFail else .ok }

/-- An environment whose first subtitle stream is ASS and whose
ASS-to-SRT conversion exits non-zero (the direct ASS extraction
succeeds). -/
def envAss : Env :=
  { envBase with
    probeSubCodec := fun _ => "ass"
    run := fun cmd => if cmd.contains "srt" then .exitFail else .ok }

/-! ## C4 — fate of the temporary `.ass` file -/

/-- C4 counterexample: with an ASS subtitle stream, a successful ASS
extraction and a failed ASS-to-SRT conversion, `extract_subtitles`
returns `False` with the temporary `.ass` file still on disk — the claim
that the native-format temp file is deleted whether or not the
conversion succeeded is false on the code. -/
theorem ass_temp_left_on_failed_conversion :
    extract_subtitles envAss "v.mkv" "/tmp/o" ⟨[], [], []⟩ =
      (.ok false,
       ⟨["/tmp/o.ass"],
        [ass_cmd "v.mkv" "/tmp/o.ass", srt_from_ass_cmd "/tmp/o.ass" "/tmp/o.srt"],
        []⟩)
    ∧ "/tmp/o.ass" ∈ (extract_subtitles envAss "v.mkv" "/tmp/o" ⟨[], [], []⟩).2.fs := by
  constructor
  · rfl
  · decide

/-- C4 amended: for an asset whose first subtitle stream is style-family
(ASS/SSA) and whose ASS extraction succeeded, the temporary `.ass` file
is deleted exactly when the conversion to SRT succeeds: after a
successful conversion it no longer exists, while after a conversion that
exits non-zero it remains on disk and `extract_subtitles` returns
`False`. -/
theorem ass_temp_removed_only_on_success
    (env env2 : Env) (vp op vp2 op2 : String) (st st2 : St)
    (hc : env.probeSubCodec vp = "ass" ∨ env.probeSubCodec vp = "ssa")
    (h1 : env.run (ass_cmd vp (normpath (op ++ ".ass"))) = .ok)
    (h2 : env.run (srt_from_ass_cmd (normpath (op ++ ".ass")) (normpath (op ++ ".srt"))) = .ok)
    (hc2 : env2.probeSubCodec vp2 = "ass" ∨ env2.probeSubCodec vp2 = "ssa")
    (h3 : env2.run (ass_cmd vp2 (normpath (op2 ++ ".ass"))) = .ok)
    (h4 : env2.run (srt_from_ass_cmd (normpath (op2 ++ ".ass")) (normpath (op2 ++ ".srt")))
        = .exitFail) :
    normpath (op ++ ".ass") ∉ (extract_subtitles env vp op st).2.fs
    ∧ normpath (op2 ++ ".ass") ∈ (extract_subtitles env2 vp2 op2 st2).2.fs
    ∧ (extract_subtitles env2 vp2 op2 st2).1 = .ok false := by
  refine ⟨?_, ?_, ?_⟩
  · rcases hc with hc | hc <;>
      simp [extract_subtitles, runCmd, hc, h1, h2, not_mem_filter_bne]
  · rcases hc2 with hc2 | hc2 <;>
      simp [extract_subtitles, runCmd, hc2, h3, h4]
  · rcases hc2 with hc2 | hc2 <;>
      simp [extract_subtitles, runCmd, hc2, h3, h4]

/-- Witness for the amended C4 theorem at concrete inputs. -/
theorem ass_temp_removed_only_on_success_witness :
    normpath ("/tmp/p" ++ ".ass") ∉
      (extract_subtitles { envAss with run := fun _ => .ok } "w.mkv" "/tmp/p" ⟨[], [], []⟩).2.fs
    ∧ normpath ("/tmp/o" ++ ".ass") ∈ (extract_subtitles envAss "v.mkv" "/tmp/o" ⟨[], [], []⟩).2.fs
    ∧ (extract_subtitles envAss "v.mkv" "/tmp/o" ⟨[], [], []⟩).1 = .ok false :=
  ass_temp_removed_only_on_success
    { envAss with run := fun _ => .ok } envAss "w.mkv" "/tmp/p" "v.mkv" "/tmp/o"
    ⟨[], [], []⟩ ⟨[], [], []⟩
    (by decide) (by decide) (by decide) (by decide) (by decide) (by decide)

/-! ## C5 — hardware-failure fallback -/

/-- C5 counterexample: when the hardware encoder invocation raises an
`OSError` (an invocation error rather than a non-zero exit), the
exception is not caught — the asset fails immediately, and no software
encode is attempted (the trace holds only the hardware command).  This
refutes the claim that any invocation error is absorbed by the
fallback. -/
theorem hw_invocation_error_fails_asset :
    transcode_video envGpuOsErr "v.mp4" "/t/v" "2M" true ⟨[], [], []⟩ =
      (.error .osError, ⟨[], [gpu_cmd "v.mp4" "2M" "/t/v" false], []⟩) := by
  rfl

/-- C5 amended: in hardware-preferred mode, when the hardware encode
exits non-zero (a `subprocess.CalledProcessError`), the asset is not
failed at that point: the software encode command runs automatically,
and when it succeeds the transcode succeeds with the software output
`output_path + ".mkv"` as the artifact.  An invocation error
(`OSError`) from the hardware attempt is not caught and fails the
asset. -/
theorem hw_exit_failure_falls_back
    (env : Env) (vp op br : String) (st : St)
    (h : env.run (gpu_cmd vp br op (detected_10bit env vp)) = .exitFail) :
    (transcode_video env vp op br true st).2.trace
      = st.trace ++ [gpu_cmd vp br op (detected_10bit env vp), cpu_cmd vp br op]
    ∧ (env.run (cpu_cmd vp br op) = .ok →
        transcode_video env vp op br true st =
          (.ok (), ⟨(op ++ ".mkv") :: st.fs,
                    st.trace ++ [gpu_cmd vp br op (detected_10bit env vp), cpu_cmd vp br op],
                    st.puts⟩)) := by
  rcases hcpu : env.run (cpu_cmd vp br op) with _ | _ | _ <;>
    simp [transcode_video, runCmd, h, hcpu]

/-- Witness for the amended C5 theorem at concrete inputs. -/
theorem hw_exit_failure_falls_back_witness :
    (transcode_video envFailSwOk "v.mp4" "/t/v" "2M" true ⟨[], [], []⟩).2.trace
      = [] ++ [gpu_cmd "v.mp4" "2M" "/t/v" (detected_10bit envFailSwOk "v.mp4"),
              cpu_cmd "v.mp4" "2M" "/t/v"]
    ∧ (envFailSwOk.run (cpu_cmd "v.mp4" "2M" "/t/v") = .ok →
        transcode_video envFailSwOk "v.mp4" "/t/v" "2M" true ⟨[], [], []⟩ =
          (.ok (), ⟨["/t/v" ++ ".mkv"],
                    [] ++ [gpu_cmd "v.mp4" "2M" "/t/v" (detected_10bit envFailSwOk "v.mp4"),
                          cpu_cmd "v.mp4" "2M" "/t/v"],
                    []⟩)) :=
  hw_exit_failure_falls_back envFailSwOk "v.mp4" "/t/v" "2M" ⟨[], [], []⟩ (by decide)

/-! ## C7 — unconditional cleanup -/

/-- C7: whenever `process_asset` completes normally, the asset's temp MKV
path and temp SRT path are both absent from the local file set: the
cleanup at the end of the loop runs after the transfer attempts and
deletes both files whether the transfers returned success or failure. -/
theorem cleanup_unconditional (env : Env) (args : Args) (a : Asset) (st st' : St)
    (h : process_asset env args a st = (.ok (), st')) :
    output_stem args.temp a ++ ".mkv" ∉ st'.fs
    ∧ output_stem args.temp a ++ ".srt" ∉ st'.fs := by
  unfold process_asset at h
  dsimp only at h
  split at h
  · exact absurd h (by simp)
  · split at h
    · exact absurd h (by simp)
    · split at h
      · exact absurd h (by simp)
      · rw [Prod.mk.injEq] at h
        rw [← h.2]
        exact cleanup_temp_spec _ _ _

/-- Witness for the C7 theorem at Scenario A's concrete inputs. -/
theorem cleanup_unconditional_witness :
    output_stem argsA.temp assetA ++ ".mkv" ∉
      (St.mk [] [cpu_cmd "root/a/b.mp4" "2M" "/tmp/x/a/b"]
        [("/tmp/x/a/b.mkv", "/d/a/b.mkv")]).fs
    ∧ output_stem argsA.temp assetA ++ ".srt" ∉
      (St.mk [] [cpu_cmd "root/a/b.mp4" "2M" "/tmp/x/a/b"]
        [("/tmp/x/a/b.mkv", "/d/a/b.mkv")]).fs :=
  cleanup_unconditional envBase argsA assetA ⟨[], [], []⟩ _ (by rfl)

/-! ## C8 — 10-bit downconversion placement -/

/-- C8: with hardware preferred and a detected 10-bit source, the first
command the transcoder runs is the hardware command, and it carries
`-pix_fmt yuv420p` between the input and the NVENC encoder arguments; in
software-only mode the entire run is the single libx264 command, which
carries neither the hardware encoder nor any pixel-format argument. -/
theorem hw_10bit_pixfmt_sw_skips
    (env : Env) (vp op br : String) (fs : List String) (puts : List (String × String))
    (h10 : detected_10bit env vp = true) :
    (transcode_video env vp op br true ⟨fs, [], puts⟩).2.trace.head? =
      some (gpu_cmd vp br op true)
    ∧ gpu_cmd vp br op true =
      ["ffmpeg", "-i", vp] ++ ["-pix_fmt", "yuv420p"]
        ++ ["-c:v", "h264_nvenc", "-preset", "p4", "-profile:v", "high", "-b:v", br,
            "-c:a", "aac", "-b:a", "192k", "-map", "0:v", "-map", "0:a", op ++ ".mkv"]
    ∧ (transcode_video env vp op br false ⟨fs, [], puts⟩).2.trace = [cpu_cmd vp br op]
    ∧ cpu_cmd vp br op =
      ["ffmpeg", "-i", vp, "-c:v", "libx264", "-preset", "medium", "-crf", "22", "-b:v", br,
       "-c:a", "aac", "-b:a", "192k", "-map", "0:v", "-map", "0:a", op ++ ".mkv"] := by
  refine ⟨?_, by simp [gpu_cmd], ?_, rfl⟩
  · rcases hg : env.run (gpu_cmd vp br op true) with _ | _ | _ <;>
      rcases hc : env.run (cpu_cmd vp br op) with _ | _ | _ <;>
        simp [transcode_video, runCmd, h10, hg, hc]
  · rcases hc : env.run (cpu_cmd vp br op) with _ | _ | _ <;>
      simp [transcode_video, runCmd, hc]

/-- Witness for the C8 theorem at concrete inputs. -/
theorem hw_10bit_pixfmt_sw_skips_witness :
    (transcode_video env10 "v.mp4" "/t/v" "2M" true ⟨[], [], []⟩).2.trace.head? =
      some (gpu_cmd "v.mp4" "2M" "/t/v" true)
    ∧ gpu_cmd "v.mp4" "2M" "/t/v" true =
      ["ffmpeg", "-i", "v.mp4"] ++ ["-pix_fmt", "yuv420p"]
        ++ ["-c:v", "h264_nvenc", "-preset", "p4", "-profile:v", "high", "-b:v", "2M",
            "-c:a", "aac", "-b:a", "192k", "-map", "0:v", "-map", "0:a", "/t/v" ++ ".mkv"]
    ∧ (transcode_video env10 "v.mp4" "/t/v" "2M" false ⟨[], [], []⟩).2.trace =
      [cpu_cmd "v.mp4" "2M" "/t/v"]
    ∧ cpu_cmd "v.mp4" "2M" "/t/v" =
      ["ffmpeg", "-i", "v.mp4", "-c:v", "libx264", "-preset", "medium", "-crf", "22",
       "-b:v", "2M", "-c:a", "aac", "-b:a", "192k", "-map", "0:v", "-map", "0:a",
       "/t/v" ++ ".mkv"] :=
  hw_10bit_pixfmt_sw_skips env10 "v.mp4" "/t/v" "2M" [] [] (by decide)

/-! ## C10 — no downconversion on the software fallback -/

theorem mkv_suffix_ne_pixfmt (s : String) : s ++ ".mkv" ≠ "-pix_fmt" := by
  intro h
  have hl := congrArg String.length h
  rw [String.length_append] at hl
  have h4 : String.length ".mkv" = 4 := rfl
  have h8 : String.length "-pix_fmt" = 8 := rfl
  have hs : s.data.length = 4 := by
    have hdl : s.length = s.data.length := rfl
    omega
  have hd := congrArg String.data h
  rw [String.data_append] at hd
  have hsplit : ("-pix_fmt" : String).data = ['-', 'p', 'i', 'x'] ++ ['_', 'f', 'm', 't'] := rfl
  rw [hsplit] at hd
  have htail := (List.append_inj hd (by rw [hs]; rfl)).2
  exact absurd htail (by decide)

/-- C10: when the hardware encode of a detected-10-bit asset exits
non-zero, the software fallback command is run second and contains no
pixel-format downconversion argument: `-pix_fmt` does not occur in it. -/
theorem sw_fallback_no_pixfmt
    (env : Env) (vp op br : String) (fs : List String) (puts : List (String × String))
    (h10 : detected_10bit env vp = true)
    (hg : env.run (gpu_cmd vp br op true) = .exitFail)
    (hv : vp ≠ "-pix_fmt") (hb : br ≠ "-pix_fmt") :
    (transcode_video env vp op br true ⟨fs, [], puts⟩).2.trace
      = [gpu_cmd vp br op true, cpu_cmd vp br op]
    ∧ "-pix_fmt" ∉ cpu_cmd vp br op := by
  constructor
  · rcases hc : env.run (cpu_cmd vp br op) with _ | _ | _ <;>
      simp [transcode_video, runCmd, h10, hg, hc]
  · intro hmem
    simp [cpu_cmd] at hmem
    rcases hmem with h | h | h
    · exact hv h.symm
    · exact hb h.symm
    · exact mkv_suffix_ne_pixfmt op h.symm

/-- Witness for the C10 theorem at concrete inputs. -/
theorem sw_fallback_no_pixfmt_witness :
    (transcode_video env10fail "v.mp4" "/t/v" "2M" true ⟨[], [], []⟩).2.trace
      = [gpu_cmd "v.mp4" "2M" "/t/v" true, cpu_cmd "v.mp4" "2M" "/t/v"]
    ∧ "-pix_fmt" ∉ cpu_cmd "v.mp4" "2M" "/t/v" :=
  sw_fallback_no_pixfmt env10fail "v.mp4" "/t/v" "2M" [] []
    (by decide) (by decide) (by decide) (by decide)

/-! ## C1 — the pipeline has no subtitle-extraction stage -/

/-- C1 evidence (Scenario A): processing `root/a/b.mp4` — an asset whose
first subtitle stream the probe would report as text-family (`subrip`) —
with every collaborator succeeding runs exactly one subprocess command
(the software transcode), uploads only the MKV, and ends with no
`/tmp/x/a/b.srt` ever created or uploaded: the per-asset loop of `main`
never invokes `extract_subtitles` (or `has_subtitles`), so no
subtitle-extraction stage exists between transcoding and transfer. -/
theorem main_loop_skips_subtitle_extraction :
    process_asset envBase argsA assetA ⟨[], [], []⟩ =
      (.ok (), ⟨[], [cpu_cmd "root/a/b.mp4" "2M" "/tmp/x/a/b"],
                [("/tmp/x/a/b.mkv", "/d/a/b.mkv")]⟩) := by
  rfl

/-! ## C2 — a transcode failure aborts the whole batch -/

/-- The Scenario-style two-asset batch used to exhibit the batch abort. -/
def asset1 : Asset := ⟨"/src/a1.mp4", ".", "a1"⟩

/-- Second asset of the two-asset batch; it is never reached. -/
def asset2 : Asset := ⟨"/src/a2.mp4", ".", "a2"⟩

/-- Hardware-preferred configuration for the two-asset batch. -/
def argsGpu : Args := ⟨"2M", "host", "/d", some "u", some "pw", "sftp", "/tmp/t", true⟩

/-- C2 evidence: in a two-asset batch where both the hardware and the
software encode of the first asset exit non-zero, the
`CalledProcessError` raised by `transcode_video` propagates out of the
loop in `main`: the batch ends with the error after exactly the first
asset's two encode commands, and no command for the second asset is ever
run — the remaining assets are not processed, contradicting per-asset
isolation. -/
theorem transcode_failure_halts_batch :
    process_all envFailEnc argsGpu [asset1, asset2] ⟨[], [], []⟩ =
      (.error .calledProcessError,
       ⟨[], [gpu_cmd "/src/a1.mp4" "2M" "/tmp/t/a1" false,
             cpu_cmd "/src/a1.mp4" "2M" "/tmp/t/a1"], []⟩) := by
  rfl

/-! ## C3 — a connection failure bypasses the shell fallback -/

/-- An environment in which the TCP connection underlying
`paramiko.Transport((host, 22))` fails (e.g. an unreachable port). -/
def envNoConn : Env := { envBase with transportOk := fun _ => false }

/-- C3 evidence: with the primary protocol selected and the port
unreachable, `transfer_file` raises (`paramiko.Transport` is constructed
before the `try` block) — the exception escapes the function, no shell
fallback command is run (the trace stays empty), no upload is attempted,
and no failure outcome is returned. -/
theorem transport_conn_failure_skips_fallback :
    transfer_file envNoConn ⟨[], [], []⟩ "/tmp/f.mkv" "host" "/d/f.mkv"
        (some "u") none "sftp" =
      (.error .sshException, ⟨[], [], []⟩) := by
  rfl

/-! ## C6 — ordered key candidates, first success wins -/

theorem create_remote_dir_of_statOk (statOk : String → Bool) (fuel : Nat) (p : String)
    (hf : 0 < fuel) (hs : statOk p = true) :
    create_remote_dir statOk fuel p = some () := by
  cases fuel with
  | zero => omega
  | succ k =>
    unfold create_remote_dir
    by_cases hb : p = "/" ∨ p = ""
    · rw [if_pos hb]
    · rw [if_neg hb]
      simp [hs]

/-- C6: with no explicit password, the key candidates are consulted in
the fixed order `~/.ssh/id_rsa`, `~/.ssh/id_ed25519` and the first
candidate that authenticates wins.  First conjunct pair: if `id_rsa` is
present but fails (either loading or authenticating) while `id_ed25519`
loads and authenticates, the loop selects `id_ed25519` and the whole
SFTP transfer succeeds with no fallback and no failure recorded.  Last
conjunct pair: if every candidate fails to produce an authenticated
transport, the `try` body fails (the script raises
`SSHException("All authentication methods failed")`). -/
theorem key_order_first_success_wins
    (env env2 : Env) (st st2 : St) (lp host rp lp2 rp2 u2 : String) (uo : Option String)
    (ht : env.transportOk host = true)
    (hm1 : env.home ++ "/.ssh/id_rsa" ∈ st.fs)
    (hm2 : env.home ++ "/.ssh/id_ed25519" ∈ st.fs)
    (hrsa : env.loadRSAKey (env.home ++ "/.ssh/id_rsa") = false
          ∨ env.keyAuth (env.home ++ "/.ssh/id_rsa") = false)
    (hedl : env.loadRSAKey (env.home ++ "/.ssh/id_ed25519") = true)
    (heda : env.keyAuth (env.home ++ "/.ssh/id_ed25519") = true)
    (hstat : env.statOk (dirname rp) = true)
    (hfuel : 0 < env.recursionLimit)
    (hput : env.putOk lp rp = true)
    (h2rsa : env2.home ++ "/.ssh/id_rsa" ∉ st2.fs
          ∨ env2.loadRSAKey (env2.home ++ "/.ssh/id_rsa") = false
          ∨ env2.keyAuth (env2.home ++ "/.ssh/id_rsa") = false)
    (h2ed : env2.home ++ "/.ssh/id_ed25519" ∉ st2.fs
          ∨ env2.loadRSAKey (env2.home ++ "/.ssh/id_ed25519") = false
          ∨ env2.keyAuth (env2.home ++ "/.ssh/id_ed25519") = false) :
    tryKeys env st.fs (key_paths env) = some (env.home ++ "/.ssh/id_ed25519")
    ∧ transfer_file env st lp host rp uo none "sftp" =
        (.ok true, { st with puts := st.puts ++ [(lp, rp)] })
    ∧ tryKeys env2 st2.fs (key_paths env2) = none
    ∧ sftp_attempt env2 st2 lp2 rp2 u2 none = (false, st2) := by
  have hkeys : tryKeys env st.fs (key_paths env) = some (env.home ++ "/.ssh/id_ed25519") := by
    rcases hrsa with hr | hr <;>
      simp [tryKeys, key_paths, hm1, hm2, hr, hedl, heda]
  have hkeys2 : tryKeys env2 st2.fs (key_paths env2) = none := by
    rcases h2rsa with hr | hr | hr <;> rcases h2ed with he | he | he <;>
      simp [tryKeys, key_paths, hr, he]
  refine ⟨hkeys, ?_, hkeys2, ?_⟩
  · unfold transfer_file
    rw [if_pos rfl, if_neg (by rw [ht]; simp)]
    unfold sftp_attempt
    rw [hkeys]
    simp only [Option.isSome_some, if_pos]
    rw [create_remote_dir_of_statOk env.statOk env.recursionLimit (dirname rp) hfuel hstat]
    rw [hput]
  · unfold sftp_attempt
    rw [hkeys2]
    simp

/-- An environment in which `id_rsa` fails to authenticate while
`id_ed25519` succeeds, with both key files present on disk. -/
def envKeyEd : Env :=
  { envBase with
    keyAuth := fun p => p == "/home/user/.ssh/id_ed25519" }

/-- An environment in which no key candidate authenticates. -/
def envKeyNone : Env := { envBase with keyAuth := fun _ => false }

/-- The local file set holding both key files. -/
def stKeys : St := ⟨["/home/user/.ssh/id_rsa", "/home/user/.ssh/id_ed25519"], [], []⟩

/-- Witness for the C6 theorem at concrete inputs. -/
theorem key_order_first_success_wins_witness :
    tryKeys envKeyEd stKeys.fs (key_paths envKeyEd) =
      some (envKeyEd.home ++ "/.ssh/id_ed25519")
    ∧ transfer_file envKeyEd stKeys "/tmp/f.mkv" "host" "/d/f.mkv" none none "sftp" =
        (.ok true, { stKeys with puts := stKeys.puts ++ [("/tmp/f.mkv", "/d/f.mkv")] })
    ∧ tryKeys envKeyNone stKeys.fs (key_paths envKeyNone) = none
    ∧ sftp_attempt envKeyNone stKeys "/tmp/f.mkv" "/d/f.mkv" "user" none = (false, stKeys) :=
  key_order_first_success_wins envKeyEd envKeyNone stKeys stKeys
    "/tmp/f.mkv" "host" "/d/f.mkv" "/tmp/f.mkv" "/d/f.mkv" "user" none
    (by decide) (by decide) (by decide) (by decide) (by decide) (by decide)
    (by decide) (by decide) (by decide) (by decide) (by decide)

/-! ## C9 — termination of the remote-directory recursion -/

/-- Whether a character list begins with two slashes (the POSIX
double-slash root that `posixpath.dirname` maps to itself). -/
def startsTwoSlash (cs : List Char) : Bool :=
  match cs with
  | c1 :: c2 :: _ => c1 == '/' && c2 == '/'
  | _ => false

theorem dirnameL_isPre (cs : List Char) : dirnameL cs <+: cs := by
  simp only [dirnameL]
  have h1 : (cs.reverse.dropWhile (fun c => !(c == '/'))).reverse <+: cs := by
    rw [← List.reverse_suffix, List.reverse_reverse]
    exact List.dropWhile_suffix _
  split
  · refine List.IsPrefix.trans ?_ h1
    rw [← List.reverse_suffix, List.reverse_reverse]
    exact List.dropWhile_suffix _
  · exact h1

theorem dropWhile_head_false (q : Char → Bool) :
    ∀ (l : List Char) (a : Char) (t : List Char), l.dropWhile q = a :: t → q a = false := by
  intro l
  induction l with
  | nil => intro a t h; simp [List.dropWhile] at h
  | cons x xs ih =>
    intro a t h
    rw [List.dropWhile_cons] at h
    split at h
    · exact ih a t h
    · next hx =>
      injection h with h1 _
      subst h1
      simpa using hx

theorem dirnameL_length_lt (cs : List Char) (h0 : cs ≠ []) (h1 : cs ≠ ['/'])
    (htwo : startsTwoSlash cs = false) : (dirnameL cs).length < cs.length := by
  simp only [dirnameL]
  cases hd : cs.reverse.dropWhile (fun c => !(c == '/')) with
  | nil =>
    simp
    exact List.length_pos.mpr h0
  | cons a t =>
    have ha : (fun c : Char => !(c == '/')) a = false := dropWhile_head_false _ _ a t hd
    have ha2 : a = '/' := by simpa using ha
    subst ha2
    have hsl : t.length + 1 ≤ cs.length := by
      have h := (List.dropWhile_suffix (p := fun c : Char => !(c == '/'))
        (l := cs.reverse)).length_le
      rw [hd] at h
      simpa using h
    by_cases hall : (('/' :: t).reverse ≠ []
        ∧ (('/' :: t).reverse).all (fun c => c == '/') = false)
    · rw [if_pos hall, List.reverse_reverse, List.length_reverse]
      have hstep : List.dropWhile (fun c : Char => c == '/') ('/' :: t) =
          List.dropWhile (fun c : Char => c == '/') t := by
        simp [List.dropWhile_cons]
      rw [hstep]
      have hle := (List.dropWhile_suffix (p := fun c : Char => c == '/')
        (l := t)).length_le
      omega
    · rw [if_neg hall, List.length_reverse]
      have hA : ('/' :: t).reverse ≠ [] := by simp
      have hallT : (('/' :: t).reverse).all (fun c => c == '/') = true := by
        rcases Bool.eq_false_or_eq_true ((('/' :: t).reverse).all (fun c => c == '/')) with
          hB | hB
        · exact hB
        · exact absurd ⟨hA, hB⟩ hall
      have hmem : ∀ c ∈ ('/' :: t), c = '/' := by
        intro c hc
        have := List.all_eq_true.mp hallT c (List.mem_reverse.mpr hc)
        simpa using this
      have hpre : ('/' :: t).reverse <+: cs := by
        rw [← List.reverse_suffix, List.reverse_reverse, ← hd]
        exact List.dropWhile_suffix _
      cases t with
      | nil =>
        rcases hpre with ⟨s, hs⟩
        cases s with
        | nil =>
          exfalso
          apply h1
          rw [← hs]
          rfl
        | cons b s2 =>
          rw [← hs]
          simp
      | cons b t2 =>
        exfalso
        have hmemH : ∀ c ∈ ('/' :: b :: t2).reverse, c = '/' := by
          intro c hc
          exact hmem c (List.mem_reverse.mp hc)
        rcases hpre with ⟨s, hs⟩
        have hHlen : 2 ≤ (('/' :: b :: t2).reverse).length := by simp
        cases hH : ('/' :: b :: t2).reverse with
        | nil => rw [hH] at hHlen; simp at hHlen
        | cons c1 H2 =>
          cases H2 with
          | nil => rw [hH] at hHlen; simp at hHlen
          | cons c2 H3 =>
            have hc1 : c1 = '/' := hmemH c1 (by rw [hH]; simp)
            have hc2 : c2 = '/' := hmemH c2 (by rw [hH]; simp)
            subst hc1; subst hc2
            rw [hH] at hs
            rw [← hs] at htwo
            simp [startsTwoSlash] at htwo

theorem startsTwoSlash_of_isPre {a b : List Char} (h : a <+: b)
    (ha : startsTwoSlash a = true) : startsTwoSlash b = true := by
  rcases h with ⟨s, rfl⟩
  cases a with
  | nil => exact absurd ha (by simp [startsTwoSlash])
  | cons x a2 =>
    cases a2 with
    | nil =>
      rw [show startsTwoSlash [x] = false from rfl] at ha
      exact absurd ha (by simp)
    | cons y r =>
      rw [show startsTwoSlash (x :: y :: r) = (x == '/' && y == '/') from rfl] at ha
      simpa [startsTwoSlash] using ha

theorem dirnameL_no_two_slash (cs : List Char) (htwo : startsTwoSlash cs = false) :
    startsTwoSlash (dirnameL cs) = false := by
  cases hval : startsTwoSlash (dirnameL cs) with
  | false => rfl
  | true =>
    exact absurd (startsTwoSlash_of_isPre (dirnameL_isPre cs) hval)
      (by rw [htwo]; simp)

theorem create_remote_dir_mono (statOk : String → Bool) :
    ∀ n m (p : String), n ≤ m → create_remote_dir statOk n p = some () →
      create_remote_dir statOk m p = some () := by
  intro n
  induction n with
  | zero => intro m p _ h; simp [create_remote_dir] at h
  | succ k ih =>
    intro m p hnm h
    cases m with
    | zero => omega
    | succ m2 =>
      unfold create_remote_dir at h ⊢
      by_cases hb : p = "/" ∨ p = ""
      · rw [if_pos hb]
      · rw [if_neg hb] at h ⊢
        by_cases hs : statOk p = true
        · rw [if_pos hs]
        · rw [if_neg hs] at h ⊢
          cases hk : create_remote_dir statOk k (dirname p) with
          | none => rw [hk] at h; exact absurd h (by simp)
          | some u =>
            cases u
            rw [ih m2 (dirname p) (by omega) hk]

theorem create_allfail_two_slash (n : Nat) :
    create_remote_dir (fun _ => false) n "//" = none := by
  induction n with
  | zero => rfl
  | succ k ih =>
    unfold create_remote_dir
    rw [if_neg (by decide), if_neg (by decide)]
    rw [show dirname "//" = "//" from rfl, ih]

/-- C9 counterexample: the remote path `"//"` is a fixpoint of
`os.path.dirname` distinct from both base cases, so the recursive call
does not shorten it and `create_remote_dir` never terminates on it when
the remote `stat` keeps failing (here: out of fuel even at Python's
default recursion limit of 1000). -/
theorem dirname_two_slash_fixpoint :
    dirname "//" = "//" ∧ "//" ≠ "/" ∧ "//" ≠ ""
    ∧ create_remote_dir (fun _ => false) 1000 "//" = none :=
  ⟨rfl, by decide, by decide, create_allfail_two_slash 1000⟩

theorem create_remote_dir_term_aux (statOk : String → Bool) :
    ∀ n (p : String), p.length ≤ n → startsTwoSlash p.data = false →
      create_remote_dir statOk (p.length + 1) p = some () := by
  intro n
  induction n with
  | zero =>
    intro p hp _
    have hd : p.data = [] := List.length_eq_zero.mp (Nat.le_zero.mp hp)
    have hpe : p = "" := by
      cases p with
      | mk d =>
        simp only at hd
        subst hd
        rfl
    subst hpe
    rfl
  | succ k ih =>
    intro p hp htwo
    by_cases hb : p = "/" ∨ p = ""
    · simp only [create_remote_dir]
      rw [if_pos hb]
    · by_cases hs : statOk p = true
      · simp only [create_remote_dir]
        rw [if_neg hb, if_pos hs]
      · have hpn : p ≠ "" := fun h => hb (Or.inr h)
        have hps : p ≠ "/" := fun h => hb (Or.inl h)
        have h0 : p.data ≠ [] := fun h => hpn (String.ext (by simp [h]))
        have h1 : p.data ≠ ['/'] := fun h => hps (String.ext (by simp [h]))
        have hlt : (dirnameL p.data).length < p.data.length :=
          dirnameL_length_lt p.data h0 h1 htwo
        have e1 : (dirname p).length = (dirnameL p.data).length := rfl
        have e2 : p.length = p.data.length := rfl
        have hd2 : startsTwoSlash (dirname p).data = false :=
          dirnameL_no_two_slash p.data htwo
        have hih := ih (dirname p) (by omega) hd2
        have hmono := create_remote_dir_mono statOk ((dirname p).length + 1) p.length
          (dirname p) (by omega) hih
        simp only [create_remote_dir]
        rw [if_neg hb, if_neg hs, hmono]

/-- C9 amended: the recursion of `create_remote_dir` does terminate for
every remote path that does not begin with two slashes — on such paths
each recursive call is on the strictly shorter `os.path.dirname` of the
current path, reaching a base case (`"/"` or `""`) or an existing
directory within `length + 1` calls; a path with a leading double slash
(the POSIX double-slash root) is a `dirname` fixpoint on which the
recursion does not terminate. -/
theorem create_remote_dir_terminates (statOk : String → Bool) (p : String)
    (htwo : startsTwoSlash p.data = false) :
    create_remote_dir statOk (p.length + 1) p = some () :=
  create_remote_dir_term_aux statOk p.length p (Nat.le_refl _) htwo

/-- Witness for the amended C9 theorem at a concrete path. -/
theorem create_remote_dir_terminates_witness :
    startsTwoSlash (String.data "/d/a") = false
    ∧ create_remote_dir (fun _ => false) ("/d/a".length + 1) "/d/a" = some () :=
  ⟨by decide, create_remote_dir_terminates (fun _ => false) "/d/a" (by decide)⟩

end Script
